import Mathlib

/-!
Verification of the gait-video-authentication pipeline
(`gait_preprocessing.py` and `app.py`) against its specification.

Shallow embedding conventions:
* A color frame is a matrix of RGB triples; a silhouette / GEI is a matrix of
  pixel values.  Pixel arithmetic (`np.mean`, SSIM) is carried out exactly in
  `ℚ`; the source's float64 arithmetic is exact on all inputs the claims
  exercise (sums of 8-bit integers and their quotients are far below 2^53).
* A video is the list of frames `cv2.VideoCapture` would decode, plus an
  `opened` flag (`cap.isOpened()`) and the reported `fps` (`CAP_PROP_FPS`).
* A directory of images is the list of `cv2.imread` results in the order
  `os.listdir` returns the entries; `os.listdir`'s order is arbitrary, so
  wherever it matters the listing is an explicit input of the definition.
* `cv2.imread` of an unreadable file yields `none`; OpenCV's
  `BackgroundSubtractorMOG2.apply` raises on a `None` input, which is
  modelled as `Except.error`.
-/

namespace GaitAuth

/-- One decoded color frame: rows of (B, G, R) byte triples. -/
abbrev Frame := List (List (ℕ × ℕ × ℕ))

/-- One single-channel image (silhouette mask or GEI), pixel values in `ℚ`. -/
abbrev Image := List (List ℚ)

/-- The body of `extract_frames`'s read loop: emit the frame just read, then
issue `skip` further `cap.read()` calls whose results are discarded
(`for _ in range(skip_frames): cap.read()`).  `skip` is the clamped skip
count: Python's `range` of a non-positive number is empty. -/
def sampleLoop (skip : ℕ) : List Frame → List Frame
  | [] => []
  | f :: rest => f :: sampleLoop skip (rest.drop skip)
  termination_by l => l.length
  decreasing_by simp [List.length_drop]; omega

/-- `extract_frames(video_path, output_folder, frame_rate)` from
`gait_preprocessing.py`.  If the capture does not open the function returns
with no frame written.  Otherwise each iteration saves one frame and then
skips `int(cap.get(cv2.CAP_PROP_FPS)) // frame_rate - 1` reads; for
nonnegative `fps`, Python's `int()` truncation is `⌊fps⌋₊`, the `//` is
natural division, and the clamping of a non-positive skip count by `range`
is natural subtraction. -/
def extract_frames (opened : Bool) (fps : ℚ) (frame_rate : ℕ)
    (video : List Frame) : List Frame :=
  if opened then sampleLoop (⌊fps⌋₊ / frame_rate - 1) video else []

/-- Errors surfaced by the OpenCV calls the pipeline makes. -/
inductive CvError
  | emptyInput
deriving DecidableEq

/-- `extract_silhouettes(input_folder, output_folder)` from
`gait_preprocessing.py`.  The loop walks the `os.listdir` listing of the
frames folder (an explicit argument here, paired with each entry's
`cv2.imread` result), applies the stateful background subtractor to every
entry in listing order, and writes each mask back under the same file name.
The subtractor (`cv2.createBackgroundSubtractorMOG2()`) is external state;
it is the `apply` parameter with its evolving state `σ`.  There is no
readability check: `cv2.imread` returning `None` reaches `fgbg.apply`,
which raises on an empty input - modelled as `Except.error`. -/
def extract_silhouettes {σ : Type} (apply : σ → Frame → σ × Image) :
    σ → List (String × Option Frame) → Except CvError (List (String × Image))
  | _, [] => .ok []
  | _, (_, none) :: _ => .error .emptyInput
  | s, (name, some f) :: rest =>
    match extract_silhouettes apply (apply s f).1 rest with
    | .error e => .error e
    | .ok out => .ok ((name, (apply s f).2) :: out)

/-- Pointwise sum of two images (`np.mean` stacks then sums pixelwise; the
source only ever sums images of identical dimensions, where `zipWith`
agrees with NumPy). -/
def addImage (a b : Image) : Image :=
  List.zipWith (fun r1 r2 => List.zipWith (fun x y => x + y) r1 r2) a b

/-- Pointwise scaling of an image by a rational factor. -/
def smulImage (c : ℚ) (a : Image) : Image :=
  a.map (fun row => row.map (fun v => c * v))

/-- `create_gei(silhouette_folder)` from `gait_preprocessing.py`.  Input is
the list of `cv2.imread` results over the folder listing; unreadable
entries (`None`) are skipped with a printed warning.  If no valid
silhouette remains the function prints an error and returns `None`;
otherwise it returns `np.mean(silhouette_images, axis=0)`, the pixelwise
arithmetic mean of the valid silhouettes. -/
def create_gei (reads : List (Option Image)) : Option Image :=
  match reads.filterMap id with
  | [] => none
  | i :: rest =>
    some (smulImage (1 / ((rest.length : ℚ) + 1)) (rest.foldl addImage i))

/-- SSIM regularization constant `C1 = (K1 * L)^2` with `K1 = 0.01`,
`L = data_range = 255` (the defaults `compare_geis` uses). -/
def ssimC1 : ℚ := ((1 / 100 : ℚ) * 255) ^ 2

/-- SSIM regularization constant `C2 = (K2 * L)^2` with `K2 = 0.03`,
`L = data_range = 255`. -/
def ssimC2 : ℚ := ((3 / 100 : ℚ) * 255) ^ 2

/-- All pixels of an image as one flat list. -/
def pixList (a : Image) : List ℚ := a.flatten

/-- Arithmetic mean of a list of rationals (0 on the empty list, since `ℚ`
division by zero is zero; never reached on real images). -/
def meanQ (xs : List ℚ) : ℚ := xs.sum / xs.length

/-- Variance of a list of rationals about its mean. -/
def varQ (xs : List ℚ) : ℚ :=
  ((xs.map (fun v => (v - meanQ xs) ^ 2)).sum) / xs.length

/-- Covariance of two equally long lists of rationals. -/
def covQ (xs ys : List ℚ) : ℚ :=
  ((List.zipWith (fun x y => (x - meanQ xs) * (y - meanQ ys)) xs ys).sum) /
    xs.length

/-- Modelled from the spec: `skimage.metrics.structural_similarity` is an
external library call, so it is not in this repository's sources.  The spec
(glossary and section 4.4) describes it as the structural-similarity index -
the product of luminance, contrast and structure comparisons over the
0-255 data range, bounded in [-1, 1] with 1 meaning identical - which is
the standard SSIM formula; it is modelled here exactly over `ℚ` with the
whole image as a single window. -/
def ssimQ (a b : Image) : ℚ :=
  ((2 * meanQ (pixList a) * meanQ (pixList b) + ssimC1) *
      (2 * covQ (pixList a) (pixList b) + ssimC2)) /
    ((meanQ (pixList a) ^ 2 + meanQ (pixList b) ^ 2 + ssimC1) *
      (varQ (pixList a) + varQ (pixList b) + ssimC2))

/-- `compare_geis(gei1, gei2, threshold)` from `app.py`: resize both GEIs to
128x128 (`cv2.resize` is external and deterministic; it is the `resize`
parameter, applied to both inputs), compute SSIM over the 0-255 data range,
and return the boolean `similarity >= threshold`.  Note the function
returns the boolean, not the score. -/
def compare_geis (resize : Image → Image) (gei1 gei2 : Image)
    (threshold : ℚ) : Bool :=
  decide (threshold ≤ ssimQ (resize gei1) (resize gei2))

/-- The enrolled-GEI store as `is_person_enrolled` traverses it: person
directories, each holding view directories, each holding template files
whose `cv2.imread` result is an `Option Image` (entries that are not
directories at the person or view level are skipped by the code and are
not represented). -/
abbrev Gallery := List (List (List (Option Image)))

/-- All (person, view, template) leaves of the gallery in traversal order. -/
def galleryLeaves (g : Gallery) : List (Option Image) := g.flatten.flatten

/-- The leaves that load successfully. -/
def validTemplates (g : Gallery) : List Image :=
  (galleryLeaves g).filterMap id

/-- Python's numeric coercion of the boolean `compare_geis` returns:
`True` is 1 and `False` is 0 in comparisons against numbers. -/
def boolVal (b : Bool) : ℚ := if b then 1 else 0

/-- The body of the gallery loop in `is_person_enrolled`: a template that
fails to load is skipped (`continue`); otherwise
`similarity = compare_geis(uploaded_gei, enrolled_gei, match_threshold)`
(a boolean!) and `if similarity > max_similarity: max_similarity =
similarity`. -/
def matchStep (resize : Image → Image) (probe : Image) (Tm : ℚ)
    (m : ℚ) (entry : Option Image) : ℚ :=
  match entry with
  | none => m
  | some t =>
    if m < boolVal (compare_geis resize probe t Tm) then
      boolVal (compare_geis resize probe t Tm)
    else m

/-- The value of `max_similarity` after the full gallery traversal in
`is_person_enrolled`: initialized to `-1`, folded with `matchStep`. -/
def gallery_max_similarity (resize : Image → Image) (probe : Image)
    (g : Gallery) (Tm : ℚ) : ℚ :=
  (galleryLeaves g).foldl (matchStep resize probe Tm) (-1)

/-- Steps 2-3 of `is_person_enrolled(uploaded_video, enrolled_geis_folder,
match_threshold, reject_threshold)` from `app.py`, starting from the probe
GEI Step 1 produced (`create_gei`'s result, `none` when it failed): a
failed probe returns `False`; otherwise the decision is
`True` if `max_similarity >= match_threshold`, else `False` if
`max_similarity < reject_threshold`, else `False` (the ambiguous band). -/
def is_person_enrolled (resize : Image → Image) (probe : Option Image)
    (g : Gallery) (Tm Tr : ℚ) : Bool :=
  match probe with
  | none => false
  | some p =>
    if Tm ≤ gallery_max_similarity resize p g Tm then true
    else if gallery_max_similarity resize p g Tm < Tr then false
    else false

/-- The whole of `is_person_enrolled` including its Step 1 preprocessing:
extract frames from the uploaded video, run the background subtractor over
the frames folder's listing, build the probe GEI from the silhouettes
folder's listing, then match against the gallery.  `listFrames` and
`listSils` model `os.listdir` plus `cv2.imread` over the two temp folders
(the listing order is arbitrary and read-back may fail, so both are
parameters); an OpenCV exception in silhouette extraction propagates. -/
def verify_attempt {σ : Type} (resize : Image → Image) (opened : Bool)
    (fps : ℚ) (R : ℕ) (video : List Frame)
    (apply : σ → Frame → σ × Image) (s0 : σ)
    (listFrames : List Frame → List (String × Option Frame))
    (listSils : List (String × Image) → List (Option Image))
    (g : Gallery) (Tm Tr : ℚ) : Except CvError Bool :=
  match extract_silhouettes apply s0
      (listFrames (extract_frames opened fps R video)) with
  | .error e => .error e
  | .ok sils =>
    .ok (is_person_enrolled resize (create_gei (listSils sils)) g Tm Tr)

/-! Helper lemmas about the gallery fold. -/

theorem matchStep_some_eq_max (resize : Image → Image) (probe : Image)
    (Tm m : ℚ) (t : Image) :
    matchStep resize probe Tm m (some t)
      = max m (boolVal (compare_geis resize probe t Tm)) := by
  simp only [matchStep]
  rcases le_or_lt (boolVal (compare_geis resize probe t Tm)) m with h | h
  · rw [if_neg (not_lt.mpr h), max_eq_left h]
  · rw [if_pos h, max_eq_right h.le]

theorem foldl_matchStep_filterMap (resize : Image → Image) (probe : Image)
    (Tm : ℚ) : ∀ (l : List (Option Image)) (init : ℚ),
    l.foldl (matchStep resize probe Tm) init
      = (l.filterMap id).foldl
          (fun m t => max m (boolVal (compare_geis resize probe t Tm))) init
  | [], _ => rfl
  | none :: rest, init => by
    simpa [matchStep] using foldl_matchStep_filterMap resize probe Tm rest init
  | some t :: rest, init => by
    simpa [matchStep_some_eq_max] using
      foldl_matchStep_filterMap resize probe Tm rest
        (max init (boolVal (compare_geis resize probe t Tm)))

theorem gallery_max_similarity_eq (resize : Image → Image) (probe : Image)
    (g : Gallery) (Tm : ℚ) :
    gallery_max_similarity resize probe g Tm
      = (validTemplates g).foldl
          (fun m t => max m (boolVal (compare_geis resize probe t Tm))) (-1) :=
  foldl_matchStep_filterMap resize probe Tm (galleryLeaves g) (-1)

/-- C2, counterexample.  The claim says the empty-gallery result reports max
similarity as an explicit non-numeric "no comparisons made" sentinel, "in
particular, not a numeric value such as 0 or -1".  In the code
`max_similarity` simply keeps its numeric initial value `-1` when no valid
template exists; and the verdict is not even unconditionally "not
verified": with `match_threshold = -1` (so that `-1 >= match_threshold`)
an empty gallery is VERIFIED. -/
theorem c2_empty_gallery_counterexample :
    gallery_max_similarity id [[0]] [] (3 / 4) = -1
    ∧ is_person_enrolled id (some [[0]]) [] (-1) (-2) = true := by
  constructor
  · rfl
  · decide

/-- C2, amended: if the gallery has zero valid (loadable) templates,
`max_similarity` keeps its numeric initial value `-1` (there is no
non-numeric sentinel, and `-1` is indistinguishable from a true SSIM score
of `-1`), and the verdict is "not verified" provided the match threshold
exceeds `-1` (true of the whole UI range [0.5, 1]). -/
theorem c2_empty_gallery_amended (resize : Image → Image) (probe : Image)
    (g : Gallery) (Tm Tr : ℚ) (hv : validTemplates g = [])
    (hTm : -1 < Tm) :
    gallery_max_similarity resize probe g Tm = -1
    ∧ is_person_enrolled resize (some probe) g Tm Tr = false := by
  have hm : gallery_max_similarity resize probe g Tm = -1 := by
    rw [gallery_max_similarity_eq, hv]
    rfl
  refine ⟨hm, ?_⟩
  simp only [is_person_enrolled, hm]
  rw [if_neg (not_le.mpr hTm), ite_self]

/-- C2, witness for the amended theorem: a gallery whose only leaf fails to
load, at the default thresholds. -/
theorem c2_empty_gallery_amended_witness :
    gallery_max_similarity id [[0]] [[[none]]] (3 / 4) = -1
    ∧ is_person_enrolled id (some [[0]]) [[[none]]] (3 / 4) (1 / 2) = false :=
  c2_empty_gallery_amended id [[0]] [[[none]]] (3 / 4) (1 / 2) rfl
    (by norm_num)

/-- C4, counterexample.  The claim says `extract_silhouettes` skips an
unreadable frame with a warning and continues, never raising.  In the code
the `cv2.imread` result is passed to `fgbg.apply` with no check, so an
unreadable frame (`None`) raises an OpenCV error instead of being
skipped - the listing consisting of one unreadable frame yields an error,
not the empty silhouette sequence the claim requires. -/
theorem c4_unreadable_frame_counterexample :
    extract_silhouettes (fun (s : Unit) (_ : Frame) => (s, ([] : Image))) ()
        [("frame_0000", (none : Option Frame))]
      = Except.error CvError.emptyInput := rfl

/-- C4, amended: `extract_silhouettes` itself never skips - an unreadable
frame reaches the background subtractor and aborts extraction with an
OpenCV error.  The skip-with-warning behaviour the spec describes lives in
`create_gei` (the EnergyAccumulator stage), which drops unreadable entries
from the silhouette-folder listing without affecting the resulting GEI, so
the sequence actually averaged may be shorter than the frame sequence. -/
theorem c4_unreadable_frames_amended :
    (∀ (σ : Type) (apply : σ → Frame → σ × Image) (s0 : σ) (name : String)
        (rest : List (String × Option Frame)),
      extract_silhouettes apply s0 ((name, none) :: rest)
        = Except.error CvError.emptyInput)
    ∧ (∀ s1 s2 : List (Option Image),
      create_gei (s1 ++ none :: s2) = create_gei (s1 ++ s2)) := by
  constructor
  · intro σ apply s0 name rest
    rfl
  · intro s1 s2
    have h : (s1 ++ none :: s2).filterMap (id : Option Image → Option Image)
        = (s1 ++ s2).filterMap id := by
      simp [List.filterMap_append]
    simp only [create_gei, h]

/-- C6: a failed probe-signature build is terminal.  `create_gei` of an
empty valid-silhouette list returns `none` (no silent default); a `none`
probe makes `is_person_enrolled` return `False`; and the whole attempt on
a video that fails to open (`opened = false`, so `extract_frames` writes
zero frames and both temp folders stay empty) returns the verdict
`False`. -/
theorem c6_empty_sequence_terminal {σ : Type} (resize : Image → Image)
    (fps : ℚ) (R : ℕ) (video : List Frame)
    (apply : σ → Frame → σ × Image) (s0 : σ)
    (listFrames : List Frame → List (String × Option Frame))
    (listSils : List (String × Image) → List (Option Image))
    (g : Gallery) (Tm Tr : ℚ)
    (hF : listFrames [] = []) (hS : listSils [] = []) :
    create_gei [] = none
    ∧ is_person_enrolled resize none g Tm Tr = false
    ∧ verify_attempt resize false fps R video apply s0 listFrames listSils
        g Tm Tr = Except.ok false := by
  refine ⟨rfl, rfl, ?_⟩
  have h1 : extract_frames false fps R video = [] := rfl
  simp only [verify_attempt, h1, hF, extract_silhouettes, hS]
  rfl

/-- C6, witness: everything instantiated concretely. -/
theorem c6_empty_sequence_terminal_witness :
    create_gei [] = none
    ∧ is_person_enrolled id none [] (3 / 4) (1 / 2) = false
    ∧ verify_attempt id false 30 30 []
        (fun (s : Unit) (_ : Frame) => (s, ([] : Image))) ()
        (fun _ => []) (fun _ => []) [] (3 / 4) (1 / 2) = Except.ok false :=
  @c6_empty_sequence_terminal Unit id 30 30 []
    (fun s _ => (s, [])) () (fun _ => []) (fun _ => []) [] (3 / 4) (1 / 2)
    rfl rfl

/-- C10: the verdict never depends on `reject_threshold` - both the
below-reject branch and the ambiguous-band branch return `False`, so the
returned boolean is the same for any two reject thresholds. -/
theorem c10_reject_threshold_irrelevant (resize : Image → Image)
    (probe : Option Image) (g : Gallery) (Tm r1 r2 : ℚ) :
    is_person_enrolled resize probe g Tm r1
      = is_person_enrolled resize probe g Tm r2 := by
  cases probe with
  | none => rfl
  | some p => simp only [is_person_enrolled, ite_self]

/-! SSIM reflexivity. -/

theorem zipWith_self_eq_map (f : ℚ → ℚ → ℚ) :
    ∀ l : List ℚ, List.zipWith f l l = l.map (fun v => f v v)
  | [] => rfl
  | v :: vs => by simp [zipWith_self_eq_map f vs]

theorem covQ_self (xs : List ℚ) : covQ xs xs = varQ xs := by
  simp only [covQ, varQ, zipWith_self_eq_map]
  have h : (fun v : ℚ => (v - meanQ xs) * (v - meanQ xs))
      = fun v : ℚ => (v - meanQ xs) ^ 2 := by
    funext v; ring
  rw [h]

theorem varQ_nonneg (xs : List ℚ) : 0 ≤ varQ xs := by
  apply div_nonneg
  · apply List.sum_nonneg
    intro x hx
    obtain ⟨v, _, rfl⟩ := List.mem_map.mp hx
    exact sq_nonneg _
  · exact_mod_cast Nat.zero_le xs.length

theorem ssimQ_self (a : Image) : ssimQ a a = 1 := by
  have hc1 : (0 : ℚ) < ssimC1 := by norm_num [ssimC1]
  have hc2 : (0 : ℚ) < ssimC2 := by norm_num [ssimC2]
  have hv : 0 ≤ varQ (pixList a) := varQ_nonneg _
  have hm : 0 ≤ meanQ (pixList a) ^ 2 := sq_nonneg _
  unfold ssimQ
  rw [covQ_self]
  have hnum : 2 * meanQ (pixList a) * meanQ (pixList a) + ssimC1
      = meanQ (pixList a) ^ 2 + meanQ (pixList a) ^ 2 + ssimC1 := by ring
  have hden : 2 * varQ (pixList a) + ssimC2
      = varQ (pixList a) + varQ (pixList a) + ssimC2 := by ring
  rw [hnum, hden]
  apply div_self
  apply ne_of_gt
  apply mul_pos
  · linarith
  · linarith

/-- C8: SSIM of a GEI with itself is the metric's maximum 1, and a gallery
holding one template identical to the probe at `match_threshold = 0.75`
yields the "verified" verdict.  (The code's tracked `max_similarity` is
the boolean `True`, which Python values at exactly 1.0.) -/
theorem c8_self_similarity_verified (resize : Image → Image) (a : Image) :
    ssimQ a a = 1
    ∧ is_person_enrolled resize (some a) [[[some a]]] (3 / 4) (1 / 2)
        = true := by
  refine ⟨ssimQ_self a, ?_⟩
  have hc : compare_geis resize a a (3 / 4) = true := by
    rw [compare_geis, decide_eq_true_iff, ssimQ_self]
    norm_num
  have hm : gallery_max_similarity resize a [[[some a]]] (3 / 4) = 1 := by
    simp [gallery_max_similarity, galleryLeaves, matchStep, hc, boolVal]
  simp only [is_person_enrolled, hm]
  norm_num

/-- C1: the code does not track the maximum similarity score.
`compare_geis` returns the boolean `similarity >= threshold`, and
`is_person_enrolled` folds its maximum (Python values the booleans at 0
and 1, over the initial `-1`), while printing and intending scores (its
accumulator is even named `max_similarity`).  Concretely: probe `[[0,0]]`
against the single enrolled template `[[255,255]]` has SSIM score
`1/10001`, yet the tracked maximum after the traversal is `0`, not
`1/10001` - so the "maximum similarity score" the claim (and the spec)
describe is never computed.  The verdict at the default thresholds is
still "not verified" here. -/
theorem c1_boolean_max_divergence :
    ssimQ [[0, 0]] [[255, 255]] = 1 / 10001
    ∧ gallery_max_similarity id [[0, 0]] [[[some [[255, 255]]]]] (3 / 4) = 0
    ∧ gallery_max_similarity id [[0, 0]] [[[some [[255, 255]]]]] (3 / 4)
        ≠ ssimQ (id [[0, 0]]) (id [[255, 255]])
    ∧ is_person_enrolled id (some [[0, 0]]) [[[some [[255, 255]]]]]
        (3 / 4) (1 / 2) = false := by
  have h255 : ssimQ [[0, 0]] [[255, 255]] = 1 / 10001 := by
    norm_num [ssimQ, pixList, meanQ, varQ, covQ, ssimC1, ssimC2]
  have hcomp : compare_geis id [[0, 0]] [[255, 255]] (3 / 4) = false := by
    rw [compare_geis, decide_eq_false_iff_not, id_eq, id_eq, h255]
    norm_num
  have hmax : gallery_max_similarity id [[0, 0]] [[[some [[255, 255]]]]]
      (3 / 4) = 0 := by
    simp only [gallery_max_similarity, galleryLeaves, List.flatten_cons,
      List.flatten_nil, List.append_nil, List.foldl_cons, List.foldl_nil,
      matchStep, hcomp, boolVal]
    norm_num
  refine ⟨h255, hmax, ?_, ?_⟩
  · rw [hmax, id_eq, id_eq, h255]
    norm_num
  · simp only [is_person_enrolled, hmax]
    norm_num

/-! Pixelwise-mean algebra for `create_gei`. -/

theorem addRow_smul (c d : ℚ) : ∀ row : List ℚ,
    List.zipWith (fun x y => x + y) (row.map (fun v => c * v))
        (row.map (fun v => d * v))
      = row.map (fun v => (c + d) * v)
  | [] => rfl
  | v :: vs => by
    simp only [List.map_cons, List.zipWith_cons_cons, addRow_smul c d vs,
      List.cons.injEq, and_true]
    ring

theorem addImage_smul (c d : ℚ) : ∀ S : Image,
    addImage (smulImage c S) (smulImage d S) = smulImage (c + d) S
  | [] => rfl
  | row :: rows => by
    have ih := addImage_smul c d rows
    simp only [addImage, smulImage, List.map_cons, List.zipWith_cons_cons,
      List.cons.injEq] at ih ⊢
    exact ⟨addRow_smul c d row, ih⟩

theorem smulImage_one : ∀ S : Image, smulImage 1 S = S := by
  intro S
  simp [smulImage]

theorem smulImage_smul (c d : ℚ) (S : Image) :
    smulImage c (smulImage d S) = smulImage (c * d) S := by
  simp only [smulImage, List.map_map]
  have h : ((fun row : List ℚ => row.map fun v => c * v) ∘
        fun row : List ℚ => row.map fun v => d * v)
      = fun row : List ℚ => row.map fun v => c * d * v := by
    funext row
    simp only [Function.comp_apply, List.map_map]
    have h2 : ((fun v : ℚ => c * v) ∘ fun v : ℚ => d * v)
        = fun v : ℚ => c * d * v := by
      funext v
      simp only [Function.comp_apply]
      ring
    rw [h2]
  rw [h]

theorem foldl_addImage_replicate (S : Image) : ∀ (k : ℕ) (c : ℚ),
    (List.replicate k S).foldl addImage (smulImage c S)
      = smulImage (c + k) S
  | 0, c => by simp
  | k + 1, c => by
    have h1 : addImage (smulImage c S) S = smulImage (c + 1) S := by
      have h := addImage_smul c 1 S
      rwa [smulImage_one] at h
    rw [List.replicate_succ, List.foldl_cons, h1,
      foldl_addImage_replicate S k (c + 1)]
    congr 1
    push_cast
    ring

theorem filterMap_id_replicate_some (S : Image) :
    ∀ n : ℕ, (List.replicate n (some S)).filterMap id = List.replicate n S
  | 0 => rfl
  | n + 1 => by
    simp only [List.replicate_succ, List.filterMap_cons, id_eq,
      filterMap_id_replicate_some S n]

/-- C7: the GEI of N identical silhouettes is that silhouette, for any
N >= 1 - `np.mean` of N copies is the identity (here exactly, in `ℚ`; in
the source, float64 sums of N equal 8-bit values and the division by N are
exact as well below 2^53). -/
theorem c7_gei_of_identical (S : Image) (N : ℕ) (hN : 1 ≤ N) :
    create_gei (List.replicate N (some S)) = some S := by
  obtain ⟨k, rfl⟩ : ∃ k, N = k + 1 := ⟨N - 1, by omega⟩
  have hf : (List.replicate (k + 1) (some S)).filterMap id
      = S :: List.replicate k S := by
    rw [filterMap_id_replicate_some S (k + 1), List.replicate_succ]
  simp only [create_gei, hf, List.length_replicate]
  have h1 : (List.replicate k S).foldl addImage S = smulImage (1 + k) S := by
    have h := foldl_addImage_replicate S k 1
    rwa [smulImage_one] at h
  rw [h1, smulImage_smul]
  have h2 : (1 / ((k : ℚ) + 1)) * (1 + k) = 1 := by
    have hk : ((k : ℚ) + 1) ≠ 0 := by positivity
    field_simp
    ring
  rw [h2, smulImage_one]

/-- C7, witness: two copies of a concrete one-pixel-row silhouette. -/
theorem c7_gei_of_identical_witness :
    1 ≤ 2 ∧ create_gei (List.replicate 2 (some [[0, 255]])) = some [[0, 255]] :=
  ⟨by norm_num, c7_gei_of_identical [[0, 255]] 2 (by norm_num)⟩

/-! Sampling arithmetic for `extract_frames`. -/

theorem sampleLoop_getElem (skip : ℕ) : ∀ (l : List Frame) (j : ℕ),
    (sampleLoop skip l)[j]? = l[j * (skip + 1)]?
  | [], j => by simp [sampleLoop]
  | f :: rest, 0 => by simp [sampleLoop]
  | f :: rest, j + 1 => by
    have ih := sampleLoop_getElem skip (rest.drop skip) j
    have hidx : (j + 1) * (skip + 1) = (skip + j * (skip + 1)) + 1 := by ring
    simp only [sampleLoop, List.getElem?_cons_succ, hidx]
    rw [ih, List.getElem?_drop]
  termination_by l _ => l.length
  decreasing_by simp [List.length_drop]; omega

theorem sampleLoop_zero : ∀ l : List Frame, sampleLoop 0 l = l
  | [] => by rw [sampleLoop]
  | f :: rest => by
    rw [sampleLoop, List.drop_zero, sampleLoop_zero rest]

/-- C5: for an opened video with nonnegative source rate `fps` and a
positive target rate `R`, the emitted frames are exactly the source frames
at indices that are multiples of `(⌊fps / R⌋ - 1) + 1`: consecutive
emitted frames are separated by exactly `⌊fps / R⌋ - 1` skipped source
frames (clamped at zero, since Python's `range` of a non-positive count is
empty); and whenever `fps < R` that skip count is non-positive and every
source frame is emitted.  (`R = 0` is excluded: the source would raise
`ZeroDivisionError`.) -/
theorem c5_frame_spacing (fps : ℚ) (R : ℕ) (video : List Frame)
    (hfps : 0 ≤ fps) (hR : 0 < R) :
    (∀ j : ℕ,
      (extract_frames true fps R video)[j]?
        = video[j * ((⌊fps / (R : ℚ)⌋ - 1).toNat + 1)]?)
    ∧ (fps < (R : ℚ) →
        ⌊fps / (R : ℚ)⌋ - 1 ≤ 0 ∧ extract_frames true fps R video = video) := by
  have hRQ : (0 : ℚ) < (R : ℚ) := by exact_mod_cast hR
  have h0 : (0 : ℤ) ≤ ⌊fps / (R : ℚ)⌋ :=
    Int.floor_nonneg.mpr (div_nonneg hfps hRQ.le)
  have htn := Int.floor_toNat (fps / (R : ℚ))
  rw [Nat.floor_div_nat] at htn
  have hskip : (⌊fps / (R : ℚ)⌋ - 1).toNat = ⌊fps⌋₊ / R - 1 := by omega
  have hopen : extract_frames true fps R video
      = sampleLoop (⌊fps⌋₊ / R - 1) video := by
    simp [extract_frames]
  constructor
  · intro j
    rw [hopen, hskip]
    exact sampleLoop_getElem (⌊fps⌋₊ / R - 1) video j
  · intro hlt
    have hfl : ⌊fps⌋₊ < R := (Nat.floor_lt hfps).mpr hlt
    have hdiv : ⌊fps⌋₊ / R = 0 := Nat.div_eq_of_lt hfl
    constructor
    · omega
    · rw [hopen, hdiv]
      exact sampleLoop_zero video

/-- C5, witness: a 90 fps source sampled at 30 fps keeps every third frame
(index 3 follows index 0), and a 10 fps source sampled at 30 fps keeps
every frame. -/
theorem c5_frame_spacing_witness :
    ((0 : ℚ) ≤ 90 ∧ 0 < 30
      ∧ (extract_frames true 90 30
          [[[(0, 0, 0)]], [[(1, 1, 1)]], [[(2, 2, 2)]], [[(3, 3, 3)]]])[1]?
        = some [[(3, 3, 3)]])
    ∧ ((10 : ℚ) < 30
      ∧ extract_frames true 10 30 [[[(0, 0, 0)]], [[(1, 1, 1)]]]
        = [[[(0, 0, 0)]], [[(1, 1, 1)]]]) := by
  constructor
  · refine ⟨by norm_num, by norm_num, ?_⟩
    have h := (c5_frame_spacing 90 30
      [[[(0, 0, 0)]], [[(1, 1, 1)]], [[(2, 2, 2)]], [[(3, 3, 3)]]]
      (by norm_num) (by norm_num)).1 1
    rw [h]
    have h3 : ⌊(90 : ℚ) / (30 : ℕ)⌋ = 3 := by
      rw [show ((90 : ℚ) / (30 : ℕ)) = 3 by push_cast; norm_num]
      exact Int.floor_intCast 3
    rw [h3]
    rfl
  · refine ⟨by norm_num, ?_⟩
    exact ((c5_frame_spacing 10 30 [[[(0, 0, 0)]], [[(1, 1, 1)]]]
      (by norm_num) (by norm_num)).2 (by norm_num)).2

/-! Monotonicity of the decision in the match threshold. -/

theorem foldl_max_mono (f g : Image → ℚ) (h : ∀ t, g t ≤ f t) :
    ∀ (ts : List Image) (m1 m2 : ℚ), m2 ≤ m1 →
      ts.foldl (fun m t => max m (g t)) m2
        ≤ ts.foldl (fun m t => max m (f t)) m1
  | [], _, _, hm => hm
  | t :: ts, _, _, hm =>
    foldl_max_mono f g h ts _ _ (max_le_max hm (h t))

theorem enrolled_true_iff (resize : Image → Image) (p : Image) (g : Gallery)
    (Tm Tr : ℚ) :
    is_person_enrolled resize (some p) g Tm Tr = true
      ↔ Tm ≤ gallery_max_similarity resize p g Tm := by
  simp only [is_person_enrolled]
  rcases le_or_lt Tm (gallery_max_similarity resize p g Tm) with h | h
  · simp [h]
  · rw [if_neg (not_le.mpr h), ite_self]
    simp [h.not_le]

/-- C9: for a fixed probe, gallery and reject threshold, the verdict is
monotonic in the match threshold - if the verdict at `T1` is "not
verified" and `T1 <= T2`, the verdict at `T2` is "not verified" too.
(The threshold enters twice: in each `compare_geis` call and in the final
`max_similarity >= match_threshold` test; both act monotonically.) -/
theorem c9_threshold_monotone (resize : Image → Image)
    (probe : Option Image) (g : Gallery) (Tr T1 T2 : ℚ) (h12 : T1 ≤ T2)
    (h1 : is_person_enrolled resize probe g T1 Tr = false) :
    is_person_enrolled resize probe g T2 Tr = false := by
  cases probe with
  | none => rfl
  | some p =>
    by_contra hne
    have h2 : is_person_enrolled resize (some p) g T2 Tr = true := by
      rcases Bool.eq_false_or_eq_true
          (is_person_enrolled resize (some p) g T2 Tr) with ht | hf
      · exact ht
      · exact absurd hf hne
    have hA : T2 ≤ gallery_max_similarity resize p g T2 :=
      (enrolled_true_iff resize p g T2 Tr).mp h2
    have hmono : gallery_max_similarity resize p g T2
        ≤ gallery_max_similarity resize p g T1 := by
      rw [gallery_max_similarity_eq, gallery_max_similarity_eq]
      refine foldl_max_mono _ _ ?_ (validTemplates g) (-1) (-1) le_rfl
      intro t
      by_cases hc : compare_geis resize p t T2 = true
      · have hc1 : compare_geis resize p t T1 = true := by
          rw [compare_geis, decide_eq_true_iff]
          exact le_trans h12 (of_decide_eq_true hc)
        rw [hc, hc1]
      · have hc2 : compare_geis resize p t T2 = false :=
          Bool.eq_false_iff.mpr hc
        rw [hc2]
        cases compare_geis resize p t T1 <;> simp [boolVal]
    have hT1 : is_person_enrolled resize (some p) g T1 Tr = true :=
      (enrolled_true_iff resize p g T1 Tr).mpr
        (le_trans h12 (le_trans hA hmono))
    rw [h1] at hT1
    exact Bool.false_ne_true hT1

/-- C9, witness: an empty gallery is rejected at threshold 1/2 and hence
also at 3/4. -/
theorem c9_threshold_monotone_witness :
    (1 / 2 : ℚ) ≤ 3 / 4
    ∧ is_person_enrolled id (some [[0]]) [] (1 / 2) (1 / 2) = false
    ∧ is_person_enrolled id (some [[0]]) [] (3 / 4) (1 / 2) = false := by
  have hbase : is_person_enrolled id (some [[0]]) [] (1 / 2) (1 / 2)
      = false := by
    simp only [is_person_enrolled, gallery_max_similarity, galleryLeaves,
      List.flatten_nil, List.foldl_nil]
    norm_num
  exact ⟨by norm_num, hbase,
    c9_threshold_monotone id (some [[0]]) [] (1 / 2) (1 / 2) (3 / 4)
      (by norm_num) hbase⟩

/-- C3: `extract_silhouettes` consumes the frames folder in `os.listdir`
order, not in capture order.  First conjunct: for any subtractor and any
fully readable listing, the silhouettes are produced exactly in listing
order (same file names, same order).  Second and third conjuncts: the
listing `[frame_0001, frame_0000]` is a permutation `os.listdir` is free
to return for a two-frame capture, and on it the silhouette sequence
comes out in the order `[frame_0001, frame_0000]`, which is not the
capture order `[frame_0000, frame_0001]` - so the frames are also fed to
the stateful background model out of capture order (the subtractor is
irrelevant to the traversal order, so a trivial one is used for the
closed instance). -/
theorem c3_listdir_order :
    (∀ (σ : Type) (apply : σ → Frame → σ × Image) (s0 : σ)
        (listing : List (String × Option Frame)),
      (∀ p ∈ listing, p.2.isSome = true) →
      Except.map (fun out => out.map Prod.fst)
          (extract_silhouettes apply s0 listing)
        = Except.ok (listing.map Prod.fst))
    ∧ Except.map (fun out => out.map Prod.fst)
        (extract_silhouettes (fun (s : Unit) (_ : Frame) => (s, ([] : Image)))
          () [("frame_0001", some [[(9, 9, 9)]]),
              ("frame_0000", some [[(0, 0, 0)]])])
      = Except.ok ["frame_0001", "frame_0000"]
    ∧ (["frame_0001", "frame_0000"] ≠ ["frame_0000", "frame_0001"])
    ∧ List.Perm
        [("frame_0001", (some [[(9, 9, 9)]] : Option Frame)),
          ("frame_0000", some [[(0, 0, 0)]])]
        [("frame_0000", (some [[(0, 0, 0)]] : Option Frame)),
          ("frame_0001", some [[(9, 9, 9)]])] := by
  have hgen : ∀ (σ : Type) (apply : σ → Frame → σ × Image)
      (listing : List (String × Option Frame)),
      (∀ p ∈ listing, p.2.isSome = true) → ∀ s0 : σ,
      Except.map (fun out => out.map Prod.fst)
          (extract_silhouettes apply s0 listing)
        = Except.ok (listing.map Prod.fst) := by
    intro σ apply listing
    induction listing with
    | nil => intro _ s0; rfl
    | cons hd tl ih =>
      intro h s0
      obtain ⟨name, o⟩ := hd
      have ho : o.isSome = true := h (name, o) (List.mem_cons_self _ _)
      obtain ⟨f, rfl⟩ := Option.isSome_iff_exists.mp ho
      have ih2 := ih (fun p hp => h p (List.mem_cons_of_mem _ hp))
        (apply s0 f).1
      simp only [extract_silhouettes]
      cases hrec : extract_silhouettes apply (apply s0 f).1 tl with
      | error e => rw [hrec] at ih2; exact absurd ih2 (by simp [Except.map])
      | ok out =>
        rw [hrec] at ih2
        simp only [Except.map] at ih2 ⊢
        simp only [List.map_cons, Except.ok.injEq] at ih2 ⊢
        rw [ih2]
  refine ⟨fun σ apply s0 listing h => hgen σ apply listing h s0, ?_, ?_, ?_⟩
  · exact hgen Unit (fun s _ => (s, [])) _ (by decide) ()
  · decide
  · exact List.Perm.swap _ _ _

/-- C3, witness: the general listing-order conjunct applied to a concrete
one-entry readable listing. -/
theorem c3_listdir_order_witness :
    Except.map (fun out => out.map Prod.fst)
        (extract_silhouettes (fun (s : Unit) (_ : Frame) => (s, ([] : Image)))
          () [("frame_0000", some [[(0, 0, 0)]])])
      = Except.ok ["frame_0000"] :=
  c3_listdir_order.1 Unit (fun s _ => (s, [])) ()
    [("frame_0000", some [[(0, 0, 0)]])] (by decide)

end GaitAuth
